import Mathlib

/-!
Verification of the slack-translate-bot repository.

This file gives a shallow embedding, in Lean 4, of the request-lifecycle
coordinator of the Slack translation bot:

  * `detect_language`       — script-based language detection
                              (src/main.py 61-65, src/src/services/translation.py 26-30,
                               src/api/slack.py 50-53; all three copies are identical);
  * `main_translate`        — `TranslationService.translate` of src/main.py 67-139;
  * `src_translate`         — `TranslationService.translate` of
                              src/src/services/translation.py 32-97;
  * `api_translate`         — `SimpleTranslationService.translate` of src/api/slack.py 55-135;
  * `create_text_blocks`    — the display chunking of src/main.py 307-339;
  * `slack_translate_command` — the `/translate` branch of the FastAPI handler
                              `slack_events`, src/main.py 425-454;
  * `main_process_translation` — the background worker `process_translation` plus
                              its delivery helpers, src/main.py 209-305 and 341-377;
  * `api_handle_translate`, `api_process_translation` — the corresponding pieces of
                              the BaseHTTPRequestHandler variant, src/api/slack.py 229-412.

External effects are modelled by oracles: the Azure OpenAI call is an
`UpstreamOutcome` (a returned `content`, possibly `None`, or a raised exception
carrying its `str(e)` text), and the Slack delivery calls are recorded as event
traces.  Python's in-memory `active_requests` set is a `Finset String`.
Python `str.strip` is modelled by `pyStrip` over the ASCII whitespace characters
recognised by `Char.isWhitespace`; only emptiness after stripping matters below.
-/

namespace SlackTranslateBot

/-- Hangul-syllable test for one character: the Python comparison
`'가' <= char <= '힣'` compares codepoints (src/main.py 63). -/
def isHangulSyllable (c : Char) : Bool :=
  (0xAC00 ≤ c.toNat) && (c.toNat ≤ 0xD7A3)

/-- Language detection of src/main.py 61-65 (identical in
src/src/services/translation.py 26-30 and src/api/slack.py 50-53):
`'ko'` iff some character of the text lies in the Hangul syllable block,
otherwise `'en'`. -/
def detect_language (text : String) : String :=
  if text.data.any isHangulSyllable then "ko" else "en"

/-- Drop leading whitespace characters from a character list. -/
def dropWhileWS : List Char → List Char
  | [] => []
  | c :: cs => if c.isWhitespace then dropWhileWS cs else c :: cs

/-- Model of Python `str.strip()`: remove leading and trailing whitespace.
The whitespace set is the ASCII one of `Char.isWhitespace`; the claims below
only ever use `pyStrip` through emptiness or on ordinary text. -/
def pyStrip (s : String) : String :=
  String.mk ((dropWhileWS (dropWhileWS s.data).reverse).reverse)

/-- Model of Python `str.lower()` (ASCII case folding). -/
def pyLower (s : String) : String :=
  String.mk (s.data.map Char.toLower)

/-- Substring test over character lists: `listIsPrefix p l` iff `p` is a prefix
of `l` (helper for the Python `in` operator on strings). -/
def listIsPrefix : List Char → List Char → Bool
  | [], _ => true
  | _ :: _, [] => false
  | a :: as, b :: bs => (a == b) && listIsPrefix as bs

/-- Scan every suffix of a character list for the pattern as a prefix. -/
def containsSubAux (pat : List Char) : List Char → Bool
  | [] => pat.isEmpty
  | l@(_ :: rest) => listIsPrefix pat l || containsSubAux pat rest

/-- Python `pat in s` on strings: `pat` occurs contiguously in `s`. -/
def containsSub (s pat : String) : Bool :=
  containsSubAux pat.data s.data

/-- Outcome of one Azure OpenAI chat-completions call, seen at the boundary the
code observes: either the call returns and `response.choices[0].message.content`
is the given optional string (`none` models Python `None`), or the call raises
an exception whose `str(e)` is the given message. -/
inductive UpstreamOutcome
  | ok (content : Option String)
  | raises (msg : String)
deriving DecidableEq

/-- Result of one `translate` call: the returned string together with whether
the upstream chat-completions call was actually issued. -/
structure TranslateResult where
  result : String
  upstreamCalled : Bool
deriving DecidableEq

/-- Stand-in for the `str` of the `AttributeError` Python raises when `.strip()`
is invoked on a `None` content (src/src/services/translation.py 87 inside the
`try`); its exact runtime wording is irrelevant to every property proved here. -/
def noneStripMsg : String := "AttributeError: strip on None"

/-- `TranslationService.translate` of src/main.py 67-139.  `avail` is
`self.available` (whether the Azure client was configured); `upstream` is the
oracle for the chat-completions call of lines 91-105.  Lines 69-70 return
whitespace-only input unchanged; lines 72-78 return the mock text when the
client is unconfigured; line 114-116 replaces a `None` content by the fixed
string `"Translation failed - empty response"`; line 118 strips a returned
content; lines 123-139 map a raised exception to the keyword-based fallback
text. -/
def main_translate (avail : Bool) (upstream : UpstreamOutcome) (text : String) :
    TranslateResult :=
  if pyStrip text = "" then ⟨text, false⟩
  else if !avail then
    ⟨(if detect_language text = "ko" then "[Mock] Hello (translation of: " ++ text ++ ")"
      else "[Mock] 안녕하세요 (번역: " ++ text ++ ")"), false⟩
  else
    match upstream with
    | UpstreamOutcome.ok none => ⟨"Translation failed - empty response", true⟩
    | UpstreamOutcome.ok (some raw) => ⟨pyStrip raw, true⟩
    | UpstreamOutcome.raises _ =>
        if detect_language text = "ko" then
          if containsSub text "테스트" then ⟨"I will test this.", true⟩
          else if containsSub text "안녕" then ⟨"Hello.", true⟩
          else ⟨"Translation service error. Original: " ++ text, true⟩
        else
          if containsSub (pyLower text) "test" then ⟨"테스트", true⟩
          else if containsSub (pyLower text) "hello" then ⟨"안녕하세요", true⟩
          else ⟨"번역 서비스 오류. 원문: " ++ text, true⟩

/-- Effective source language of src/src/services/translation.py 47-49: the
supplied `source_lang` if present, else the detected one. -/
def effSource (text : String) (source_lang : Option String) : String :=
  source_lang.getD (detect_language text)

/-- Effective target language of src/src/services/translation.py 53-55: the
supplied `target_lang` if present, else the opposite of the source. -/
def effTarget (text : String) (source_lang target_lang : Option String) : String :=
  target_lang.getD (if effSource text source_lang = "ko" then "en" else "ko")

/-- `TranslationService.translate` of src/src/services/translation.py 32-97.
`avail` is whether `self.client` was initialised (lines 40-42); `upstream` is
the oracle for the chat-completions call of lines 75-83.  Lines 35-37 return
whitespace-only input unchanged; lines 40-42 return the unavailability message;
lines 59-62 skip the call when source equals target; line 87 strips the content
(raising an `AttributeError` when the content is `None`, which the `except` of
lines 93-97 turns into the templated error string, like any other raised
exception).  The prompt built in lines 65-71 does not influence any observable
modelled here. -/
def src_translate (avail : Bool) (upstream : UpstreamOutcome) (text : String)
    (source_lang target_lang : Option String) : TranslateResult :=
  if pyStrip text = "" then ⟨text, false⟩
  else if !avail then
    ⟨"Translation service unavailable. Original text: " ++ text, false⟩
  else if effSource text source_lang = effTarget text source_lang target_lang then
    ⟨text, false⟩
  else
    match upstream with
    | UpstreamOutcome.ok none => ⟨"Translation error: " ++ noneStripMsg, true⟩
    | UpstreamOutcome.ok (some raw) => ⟨pyStrip raw, true⟩
    | UpstreamOutcome.raises msg => ⟨"Translation error: " ++ msg, true⟩

/-- `SimpleTranslationService.translate` of src/api/slack.py 55-135.  The
string literals are embedded byte-for-byte as they appear in the file.  A
`None` content makes `.strip()` raise (line 112), which the `except` of lines
128-135 maps to the same fallback text as any other exception. -/
def api_translate (avail : Bool) (upstream : UpstreamOutcome) (text : String) :
    TranslateResult :=
  if pyStrip text = "" then ⟨text, false⟩
  else if !avail then
    ⟨(if detect_language text = "ko" then "[Mock] Hello (translation of: " ++ text ++ ")"
      else "[Mock] ÏïàÎÖïÌïòÏÑ∏Ïöî (Î≤àÏó≠: " ++ text ++ ")"), false⟩
  else
    match upstream with
    | UpstreamOutcome.ok (some raw) => ⟨pyStrip raw, true⟩
    | UpstreamOutcome.ok none =>
        if detect_language text = "ko" then
          ⟨"[Fallback] Hello (translation of: " ++ text ++ ")", true⟩
        else ⟨"[Fallback] ÏïàÎÖïÌïòÏÑ∏Ïöî (Î≤àÏó≠: " ++ text ++ ")", true⟩
    | UpstreamOutcome.raises _ =>
        if detect_language text = "ko" then
          ⟨"[Fallback] Hello (translation of: " ++ text ++ ")", true⟩
        else ⟨"[Fallback] ÏïàÎÖïÌïòÏÑ∏Ïöî (Î≤àÏó≠: " ++ text ++ ")", true⟩

/-- Highest index `i` with `start ≤ i < stop` and `l[i] = c`, if any: the
search performed by Python `text.rfind(c, start, stop)`.  Defined by scanning
downward from `stop - 1`. -/
def rfindIn (l : List Char) (c : Char) (start : Nat) : Nat → Option Nat
  | 0 => none
  | stop + 1 =>
      if start ≤ stop ∧ l.get? stop = some c then some stop
      else rfindIn l c start stop

/-- Python `text.rfind(c, start, stop)`: the index as an `Int`, `-1` when the
character does not occur in the range (src/main.py 323-324). -/
def pyRfind (l : List Char) (c : Char) (start stop : Nat) : Int :=
  match rfindIn l c start stop with
  | some i => (i : Int)
  | none => -1

/-- Loop body of src/main.py 321-327 computing the end of the next chunk:
`end = min(start + max_chars, len(text))`, and when that is not the end of the
text, `break_point = max(text.rfind(' ', start, end), text.rfind('\n', start, end))`
replaces `end` whenever `break_point > start`. -/
def nextEnd (l : List Char) (maxChars start : Nat) : Nat :=
  if min (start + maxChars) l.length < l.length then
    if (start : Int) <
        max (pyRfind l ' ' start (min (start + maxChars) l.length))
          (pyRfind l '\n' start (min (start + maxChars) l.length)) then
      (max (pyRfind l ' ' start (min (start + maxChars) l.length))
        (pyRfind l '\n' start (min (start + maxChars) l.length))).toNat
    else min (start + maxChars) l.length
  else min (start + maxChars) l.length

/-- The `while start < len(text)` loop of src/main.py 320-337, producing the
chunk `text[start:end]` of each iteration.  `fuel` is a bound on the number of
iterations used only to exhibit the recursion as structural; `chunkLoop` below
instantiates it with `len(text) - start`, which `claim_C10_chunk_loop_bounds`
proves sufficient whenever `max_chars ≥ 1` (with `max_chars = 0` the Python
loop would not terminate, since then `end = start`). -/
def chunkLoopF (l : List Char) (maxChars : Nat) : Nat → Nat → List (List Char)
  | 0, _ => []
  | fuel + 1, start =>
      if start < l.length then
        (l.drop start).take (nextEnd l maxChars start - start) ::
          chunkLoopF l maxChars fuel (nextEnd l maxChars start)
      else []

/-- The chunking loop of src/main.py 318-337 on a character list. -/
def chunkLoop (l : List Char) (maxChars start : Nat) : List (List Char) :=
  chunkLoopF l maxChars (l.length - start) start

/-- The three-character delimiter that src/main.py 314 and 334 wrap around each
chunk in the mrkdwn block text (three backquote characters on each side). -/
def codeDelim : List Char := "```".data

/-- Wrap a chunk in the mrkdwn code delimiters, as src/main.py 314 and 334 do. -/
def codeWrap (s : List Char) : List Char := codeDelim ++ s ++ codeDelim

/-- Strip the per-chunk formatting delimiters again: drop the three leading and
three trailing delimiter characters. -/
def codeStrip (s : List Char) : List Char := (s.drop 3).take (s.length - 6)

/-- `create_text_blocks` of src/main.py 307-339, keeping of each produced Slack
section block its mrkdwn text (the only varying part): a single wrapped block
when the text fits in `max_chars`, else one wrapped block per loop chunk. -/
def create_text_blocks (l : List Char) (maxChars : Nat) : List (List Char) :=
  if l.length ≤ maxChars then [codeWrap l]
  else (chunkLoop l maxChars 0).map codeWrap

/-- Outcome of the `await translation_service.translate(text)` step as the
worker of src/main.py 341-377 observes it: a returned string, or a raised
exception with the given `str(e)` text. -/
inductive TransOutcome
  | ok (s : String)
  | raises (msg : String)
deriving DecidableEq

/-- Outcome of the `views.update` POST of src/main.py 243-263 inside
`update_modal_with_translation`: the Slack API answered `ok`, answered not-`ok`
(for example an expired `view_id`), or the call raised. -/
inductive UpdateOutcome
  | ok
  | notOk
  | raises
deriving DecidableEq

/-- Delivery actions of the main.py worker, recorded as a trace:
`updateAttempt` is the `views.update` POST of src/main.py 243-252 and
`fallbackSend` the `response_url` POST of `send_fallback_message`
(src/main.py 269-305), each carrying the original and translated text placed
into the payload. -/
inductive MainEvent
  | updateAttempt (orig trans : String)
  | fallbackSend (orig trans : String)
deriving DecidableEq

/-- `update_modal_with_translation` of src/main.py 209-267 as the trace of
delivery actions it performs: with no bot token (lines 212-216) it sends the
fallback message directly; otherwise it attempts the `views.update` POST and,
when Slack answers not-`ok` (lines 259-263) or the attempt raises (lines
265-267), sends the fallback message.  Its own internal `try` means it never
raises to its caller. -/
def update_modal_with_translation (hasToken : Bool) (uo : UpdateOutcome)
    (text translated : String) : List MainEvent :=
  if !hasToken then [MainEvent.fallbackSend text translated]
  else
    match uo with
    | UpdateOutcome.ok => [MainEvent.updateAttempt text translated]
    | UpdateOutcome.notOk =>
        [MainEvent.updateAttempt text translated, MainEvent.fallbackSend text translated]
    | UpdateOutcome.raises =>
        [MainEvent.updateAttempt text translated, MainEvent.fallbackSend text translated]

/-- Error text `f"번역 오류: {str(e)}"` of src/main.py 369-371. -/
def errText (msg : String) : String := "번역 오류: " ++ msg

/-- The background worker `process_translation` of src/main.py 341-377.
On a returned translation it updates the modal when a `view_id` was obtained
and otherwise sends the fallback message (lines 355-359); when the translation
call raises, it does the same with the templated error text (lines 363-373, the
inner bare `except` only logging); and the `finally` of lines 375-377 removes
`request_id` from the `active_requests` registry on every path.  The result is
the trace of delivery actions together with the registry after the worker
finishes. -/
def main_process_translation (text : String) (view_id : Option Unit)
    (tr : TransOutcome) (hasToken : Bool) (uo : UpdateOutcome)
    (registry : Finset String) (request_id : String) :
    List MainEvent × Finset String :=
  let events :=
    match tr with
    | TransOutcome.ok translated =>
        match view_id with
        | some _ => update_modal_with_translation hasToken uo text translated
        | none => [MainEvent.fallbackSend text translated]
    | TransOutcome.raises msg =>
        match view_id with
        | some _ => update_modal_with_translation hasToken uo text (errText msg)
        | none => [MainEvent.fallbackSend text (errText msg)]
  (events, registry.erase request_id)

/-- Number of dialog-update attempts in a trace. -/
def countUpdateAttempts (es : List MainEvent) : Nat :=
  (es.filter fun e => match e with
    | MainEvent.updateAttempt _ _ => true
    | _ => false).length

/-- Number of asynchronous callback (fallback-message) sends in a trace. -/
def countFallbackSends (es : List MainEvent) : Nat :=
  (es.filter fun e => match e with
    | MainEvent.fallbackSend _ _ => true
    | _ => false).length

/-- Response returned by the `/translate` branch of the FastAPI handler
`slack_events` (src/main.py 425-454). -/
inductive MainResponse
  | emptyJson
  | ack200
  | usageMessage
deriving DecidableEq

/-- The `/translate` branch of `slack_events`, src/main.py 425-454.
`getRequestId` abstracts `get_request_id` of lines 144-147 (a deterministic
md5-based hash of `f"{user_id}:{text}"`).  The handler strips the command text
at parse time (line 418), computes the request id, answers a duplicate with an
empty `JSONResponse` without touching the registry or starting any work (lines
429-431), otherwise adds the id (line 433) and either schedules the background
translation and acknowledges with an empty 200 (lines 435-446) or, for empty
text, removes the id again and answers with the usage message (lines 448-454).
The returned `Bool` records whether a background translation task was
scheduled. -/
def slack_translate_command (getRequestId : String → String → String)
    (registry : Finset String) (user_id rawText : String) :
    MainResponse × Finset String × Bool :=
  let text := pyStrip rawText
  let request_id := getRequestId user_id text
  if request_id ∈ registry then (MainResponse.emptyJson, registry, false)
  else
    if text ≠ "" then (MainResponse.ack200, insert request_id registry, true)
    else (MainResponse.usageMessage, (insert request_id registry).erase request_id, false)

/-- The fixed localized message `"번역 결과가 비어있습니다."` of src/api/slack.py 272
substituted for an empty translation result, embedded byte-for-byte as it
appears in the file. -/
def emptyResultMsg : String := "Î≤àÏó≠ Í≤∞Í≥ºÍ∞Ä ÎπÑÏñ¥ÏûàÏäµÎãàÎã§."

/-- Delivery actions of the api/slack.py modal worker: `errorModal` is
`_update_translation_modal_with_error` with the given message and `resultModal`
is `_update_translation_modal_with_results` with the original and translated
text (src/api/slack.py 270-287). -/
inductive ApiEvent
  | errorModal (msg : String)
  | resultModal (orig trans : String)
deriving DecidableEq

/-- The background closure `process_translation` of src/api/slack.py 261-287.
An empty or whitespace-only translation result is replaced by the fixed error
modal (lines 270-273); otherwise the result modal is attempted (line 276, its
boolean outcome only logged); a raised exception is shown via the error modal
with `str(e)` (lines 280-284); and the `finally` of lines 285-287 removes the
request id from `active_requests` on every path. -/
def api_process_translation (text : String) (tr : TransOutcome)
    (registry : Finset String) (request_id : String) :
    List ApiEvent × Finset String :=
  let events :=
    match tr with
    | TransOutcome.ok translated =>
        if translated = "" || pyStrip translated = "" then
          [ApiEvent.errorModal emptyResultMsg]
        else [ApiEvent.resultModal text translated]
    | TransOutcome.raises msg => [ApiEvent.errorModal msg]
  (events, registry.erase request_id)

/-- Acknowledgment sent by the `/translate` branch of `handler.do_POST` in
src/api/slack.py. -/
inductive ApiResponse
  | emptyAck
  | processingAck
  | inlineProcessing
  | inputModalAck
  | usageText
deriving DecidableEq

/-- The `/translate` branch of `handler.do_POST`, src/api/slack.py 229-412.
A duplicate request id is answered with an empty 200 body, leaving the registry
untouched and starting nothing (lines 238-244); otherwise the id is added (line
247) and, for non-empty text, one of the two asynchronous workers is started
(modal path lines 249-293, inline path lines 294-388), while empty text leads
to the input modal or the usage text and the id is removed again (lines
390-412).  The returned `Bool` records whether a background translation thread
was started. -/
def api_handle_translate (getRequestId : String → String → String)
    (registry : Finset String) (user_id text : String)
    (processingModalOk inputModalOk : Bool) :
    ApiResponse × Finset String × Bool :=
  let request_id := getRequestId user_id text
  if request_id ∈ registry then (ApiResponse.emptyAck, registry, false)
  else
    if pyStrip text ≠ "" then
      if processingModalOk then (ApiResponse.processingAck, insert request_id registry, true)
      else (ApiResponse.inlineProcessing, insert request_id registry, true)
    else
      ((if inputModalOk then ApiResponse.inputModalAck else ApiResponse.usageText),
        (insert request_id registry).erase request_id, false)

/-! Helper lemmas about the chunking loop. -/

theorem rfindIn_lt {l : List Char} {c : Char} {start i : Nat} :
    ∀ {stop : Nat}, rfindIn l c start stop = some i → i < stop := by
  intro stop
  induction stop with
  | zero => intro h; simp [rfindIn] at h
  | succ n ih =>
      intro h
      rw [rfindIn] at h
      split at h
      · exact (Option.some_inj.mp h) ▸ Nat.lt_succ_self n
      · exact Nat.lt_succ_of_lt (ih h)

theorem pyRfind_lt (l : List Char) (c : Char) (start stop : Nat) :
    pyRfind l c start stop < (stop : Int) := by
  unfold pyRfind
  split
  · next i h => exact_mod_cast rfindIn_lt h
  · have : (0 : Int) ≤ (stop : Int) := Int.natCast_nonneg stop
    omega

theorem nextEnd_le_length (l : List Char) (m s : Nat) : nextEnd l m s ≤ l.length := by
  unfold nextEnd
  have hminR : min (s + m) l.length ≤ l.length := Nat.min_le_right _ _
  have hp1 := pyRfind_lt l ' ' s (min (s + m) l.length)
  have hp2 := pyRfind_lt l '\n' s (min (s + m) l.length)
  split
  · split
    · rcases max_cases (pyRfind l ' ' s (min (s + m) l.length))
          (pyRfind l '\n' s (min (s + m) l.length)) with ⟨heq, _⟩ | ⟨heq, _⟩ <;>
        rw [heq] <;> omega
    · exact hminR
  · exact hminR

theorem nextEnd_le_add (l : List Char) (m s : Nat) : nextEnd l m s ≤ s + m := by
  unfold nextEnd
  have hminL : min (s + m) l.length ≤ s + m := Nat.min_le_left _ _
  have hp1 := pyRfind_lt l ' ' s (min (s + m) l.length)
  have hp2 := pyRfind_lt l '\n' s (min (s + m) l.length)
  split
  · split
    · rcases max_cases (pyRfind l ' ' s (min (s + m) l.length))
          (pyRfind l '\n' s (min (s + m) l.length)) with ⟨heq, _⟩ | ⟨heq, _⟩ <;>
        rw [heq] <;> omega
    · exact hminL
  · exact hminL

theorem lt_nextEnd (l : List Char) (m s : Nat) (hm : 1 ≤ m) (hs : s < l.length) :
    s < nextEnd l m s := by
  unfold nextEnd
  have hminL : s < min (s + m) l.length := lt_min (by omega) hs
  split
  · split
    · next hgt =>
        rcases max_cases (pyRfind l ' ' s (min (s + m) l.length))
            (pyRfind l '\n' s (min (s + m) l.length)) with ⟨heq, _⟩ | ⟨heq, _⟩ <;>
          rw [heq] at hgt ⊢ <;> omega
    · exact hminL
  · exact hminL

theorem chunkLoopF_join (l : List Char) (m : Nat) (hm : 1 ≤ m) :
    ∀ fuel start, l.length - start ≤ fuel →
      (chunkLoopF l m fuel start).flatten = l.drop start := by
  intro fuel
  induction fuel with
  | zero =>
      intro s hf
      rw [chunkLoopF]
      have h1 : ¬ s < l.length := by omega
      simp [h1, List.drop_eq_nil_of_le (by omega : l.length ≤ s)]
  | succ n ih =>
      intro s hf
      rw [chunkLoopF]
      by_cases h1 : s < l.length
      · have h2 : s < nextEnd l m s := lt_nextEnd l m s hm h1
        have h3 : nextEnd l m s ≤ l.length := nextEnd_le_length l m s
        simp only [h1, if_true, List.flatten_cons]
        rw [ih (nextEnd l m s) (by omega)]
        have hdd : (l.drop s).drop (nextEnd l m s - s) = l.drop (nextEnd l m s) := by
          rw [List.drop_drop, Nat.add_sub_cancel' (Nat.le_of_lt h2)]
        rw [← hdd]
        exact List.take_append_drop _ _
      · simp [h1, List.drop_eq_nil_of_le (by omega : l.length ≤ s)]

theorem chunkLoop_join (l : List Char) (m : Nat) (hm : 1 ≤ m) (start : Nat) :
    (chunkLoop l m start).flatten = l.drop start :=
  chunkLoopF_join l m hm (l.length - start) start (Nat.le_refl _)

theorem chunkLoopF_fuel_irrelevant (l : List Char) (m : Nat) (hm : 1 ≤ m) :
    ∀ f1 f2 start, l.length - start ≤ f1 → l.length - start ≤ f2 →
      chunkLoopF l m f1 start = chunkLoopF l m f2 start := by
  intro f1
  induction f1 with
  | zero =>
      intro f2 s h1 h2
      have hs : ¬ s < l.length := by omega
      cases f2 with
      | zero => rfl
      | succ n => rw [chunkLoopF, chunkLoopF]; simp [hs]
  | succ n ih =>
      intro f2 s h1 h2
      by_cases hs : s < l.length
      · have h2' : s < nextEnd l m s := lt_nextEnd l m s hm hs
        cases f2 with
        | zero => omega
        | succ k =>
            rw [chunkLoopF, chunkLoopF]
            simp only [hs, if_true]
            rw [ih k (nextEnd l m s) (by omega) (by omega)]
      · cases f2 with
        | zero => rw [chunkLoopF, chunkLoopF]; simp [hs]
        | succ k => rw [chunkLoopF, chunkLoopF]; simp [hs]

theorem codeStrip_wrap (s : List Char) : codeStrip (codeWrap s) = s := by
  have hassoc : codeWrap s = codeDelim ++ (s ++ codeDelim) := by
    simp [codeWrap, List.append_assoc]
  have hlen : (codeWrap s).length - 6 = s.length := by
    rw [hassoc]
    simp [List.length_append, codeDelim]
  have hdrop : (codeWrap s).drop 3 = s ++ codeDelim := by
    rw [hassoc]
    exact List.drop_left codeDelim (s ++ codeDelim)
  simp only [codeStrip, hdrop, hlen]
  exact List.take_left s codeDelim

/-! Claim theorems. -/

/-- C1: after the worker lifecycle completes — translation returned, translation
raised, or delivery failed and fell back — the request id has been removed from
the active-request registry (and no other id was touched), in both the
src/main.py worker (341-377) and the src/api/slack.py worker (261-287); hence
an identical subsequent submission is re-admitted and schedules a new
translation. -/
theorem claim_C1_release_on_all_paths (text : String) (view_id : Option Unit)
    (tr tra : TransOutcome) (hasToken : Bool) (uo : UpdateOutcome)
    (registry registryA : Finset String) (request_id : String)
    (getRequestId : String → String → String) (user_id resubmitText : String) :
    request_id ∉ (main_process_translation text view_id tr hasToken uo registry request_id).2 ∧
    (∀ x, x ≠ request_id →
      ((x ∈ (main_process_translation text view_id tr hasToken uo registry request_id).2) ↔
        x ∈ registry)) ∧
    request_id ∉ (api_process_translation text tra registryA request_id).2 ∧
    (∀ x, x ≠ request_id →
      ((x ∈ (api_process_translation text tra registryA request_id).2) ↔ x ∈ registryA)) ∧
    (getRequestId user_id (pyStrip resubmitText) = request_id → pyStrip resubmitText ≠ "" →
      slack_translate_command getRequestId
          (main_process_translation text view_id tr hasToken uo registry request_id).2
          user_id resubmitText =
        (MainResponse.ack200,
          insert request_id
            (main_process_translation text view_id tr hasToken uo registry request_id).2,
          true)) := by
  refine ⟨?_, ?_, ?_, ?_, ?_⟩
  · simp [main_process_translation]
  · intro x hx
    simp [main_process_translation, Finset.mem_erase, hx]
  · simp [api_process_translation]
  · intro x hx
    simp [api_process_translation, Finset.mem_erase, hx]
  · intro hk hne
    simp [slack_translate_command, main_process_translation, hk, hne]

theorem claim_C1_witness :
    "hi" ∉ (main_process_translation "hi" none (TransOutcome.ok "x") true UpdateOutcome.ok
        {"hi"} "hi").2 ∧
    (("zz" ∈ (main_process_translation "hi" none (TransOutcome.ok "x") true UpdateOutcome.ok
        {"hi"} "hi").2) ↔ "zz" ∈ ({"hi"} : Finset String)) ∧
    "hi" ∉ (api_process_translation "hi" (TransOutcome.raises "boom") {"hi"} "hi").2 ∧
    slack_translate_command (fun _ t => t)
        (main_process_translation "hi" none (TransOutcome.ok "x") true UpdateOutcome.ok
          {"hi"} "hi").2 "U1" "hi" =
      (MainResponse.ack200,
        insert "hi" (main_process_translation "hi" none (TransOutcome.ok "x") true
          UpdateOutcome.ok {"hi"} "hi").2, true) := by
  have h := claim_C1_release_on_all_paths "hi" none (TransOutcome.ok "x")
    (TransOutcome.raises "boom") true UpdateOutcome.ok {"hi"} {"hi"} "hi"
    (fun _ t => t) "U1" "hi"
  exact ⟨h.1, h.2.1 "zz" (by decide), h.2.2.1, h.2.2.2.2 (by decide) (by decide)⟩

/-- C2: a second inbound `/translate` command computing a request id already in
the active-request registry is refused with an empty acknowledgment, the
registry is not mutated, and no translation work is started — in both the
FastAPI handler (src/main.py 429-431) and the BaseHTTPRequestHandler
(src/api/slack.py 238-244). -/
theorem claim_C2_duplicate_refused (getRequestId : String → String → String)
    (registry : Finset String) (user_id text : String)
    (processingModalOk inputModalOk : Bool) :
    (getRequestId user_id (pyStrip text) ∈ registry →
      slack_translate_command getRequestId registry user_id text =
        (MainResponse.emptyJson, registry, false)) ∧
    (getRequestId user_id text ∈ registry →
      api_handle_translate getRequestId registry user_id text processingModalOk inputModalOk =
        (ApiResponse.emptyAck, registry, false)) := by
  constructor <;> intro h <;> simp [slack_translate_command, api_handle_translate, h]

theorem claim_C2_witness :
    ((fun u t => u ++ ":" ++ t) "U1" (pyStrip "hi") ∈ ({"U1:hi"} : Finset String)) ∧
    slack_translate_command (fun u t => u ++ ":" ++ t) {"U1:hi"} "U1" "hi" =
      (MainResponse.emptyJson, {"U1:hi"}, false) ∧
    api_handle_translate (fun u t => u ++ ":" ++ t) {"U1:hi"} "U1" "hi" true true =
      (ApiResponse.emptyAck, {"U1:hi"}, false) := by
  have h := claim_C2_duplicate_refused (fun u t => u ++ ":" ++ t)
    {"U1:hi"} "U1" "hi" true true
  exact ⟨by decide, h.1 (by decide), h.2 (by decide)⟩

/-- C3 counterexample: in src/main.py a successful upstream call whose content
is a single space is stripped to the empty string (lines 110-121 replace only a
`None` content by a placeholder), and the worker then delivers that empty
string itself through the fallback message — not a fixed localized placeholder,
refuting the claim for this variant. -/
theorem claim_C3_counterexample :
    (main_translate true (UpstreamOutcome.ok (some " ")) "hi").result = "" ∧
    (main_process_translation "hi" none
        (TransOutcome.ok (main_translate true (UpstreamOutcome.ok (some " ")) "hi").result)
        true UpdateOutcome.ok ∅ "r").1 = [MainEvent.fallbackSend "hi" ""] := by
  decide

/-- C3 amended: in the src/api/slack.py worker an empty or all-whitespace
translation result is replaced by the fixed localized message `emptyResultMsg`
delivered via the error modal; in src/main.py only a `None` upstream content is
replaced (by the fixed string `"Translation failed - empty response"`), while
all-whitespace content is stripped to the empty string and delivered as-is. -/
theorem claim_C3_amended (text w : String) (registry : Finset String)
    (request_id : String) (ht : pyStrip text ≠ "") (hw : pyStrip w = "") :
    (api_process_translation text
        (TransOutcome.ok (api_translate true (UpstreamOutcome.ok (some w)) text).result)
        registry request_id).1 = [ApiEvent.errorModal emptyResultMsg] ∧
    main_translate true (UpstreamOutcome.ok none) text =
      ⟨"Translation failed - empty response", true⟩ := by
  constructor
  · simp [api_translate, api_process_translation, ht, hw]
  · simp [main_translate, ht]

theorem claim_C3_amended_witness :
    pyStrip "hi" ≠ "" ∧ pyStrip " " = "" ∧
    (api_process_translation "hi"
        (TransOutcome.ok (api_translate true (UpstreamOutcome.ok (some " ")) "hi").result)
        ∅ "r").1 = [ApiEvent.errorModal emptyResultMsg] ∧
    main_translate true (UpstreamOutcome.ok none) "hi" =
      ⟨"Translation failed - empty response", true⟩ := by
  have h := claim_C3_amended "hi" " " ∅ "r" (by decide) (by decide)
  exact ⟨by decide, by decide, h.1, h.2⟩

/-- C4: when no dialog was obtained (`view_id` is `None`) the worker of
src/main.py 341-377 performs no dialog-update attempt and sends the
asynchronous callback message exactly once, whatever the translation outcome;
and when a dialog was obtained but the update attempt fails (missing bot token,
Slack answering not-ok, or the call raising), exactly one fallback callback
message is sent. -/
theorem claim_C4_fallback_ordering (text : String) (tr : TransOutcome)
    (hasToken : Bool) (uo : UpdateOutcome) (registry : Finset String)
    (request_id : String) :
    (countUpdateAttempts
        (main_process_translation text none tr hasToken uo registry request_id).1 = 0 ∧
      countFallbackSends
        (main_process_translation text none tr hasToken uo registry request_id).1 = 1) ∧
    (∀ v : Unit, hasToken = false ∨ uo ≠ UpdateOutcome.ok →
      countFallbackSends
        (main_process_translation text (some v) tr hasToken uo registry request_id).1 = 1) := by
  constructor
  · cases tr <;>
      simp [main_process_translation, countUpdateAttempts, countFallbackSends]
  · intro v hv
    cases tr <;> cases uo <;> cases hasToken <;>
        simp [main_process_translation, update_modal_with_translation,
          countUpdateAttempts, countFallbackSends] <;>
      simp at hv

theorem claim_C4_witness :
    (countUpdateAttempts (main_process_translation "hi" none (TransOutcome.ok "x") false
        UpdateOutcome.ok ∅ "r").1 = 0 ∧
      countFallbackSends (main_process_translation "hi" none (TransOutcome.ok "x") false
        UpdateOutcome.ok ∅ "r").1 = 1) ∧
    countFallbackSends (main_process_translation "hi" (some ()) (TransOutcome.ok "x") false
        UpdateOutcome.ok ∅ "r").1 = 1 := by
  have h := claim_C4_fallback_ordering "hi" (TransOutcome.ok "x") false UpdateOutcome.ok ∅ "r"
  exact ⟨h.1, h.2 () (Or.inl rfl)⟩

/-- C5: for text longer than the segment limit (any positive limit, so in
particular the default 2800 of src/main.py 307), concatenating in order the
chunks of `create_text_blocks` after stripping the per-chunk code delimiters
reproduces the original text exactly — no character is dropped or duplicated at
break points. -/
theorem claim_C5_chunking_roundtrip (l : List Char) (m : Nat)
    (hm : 1 ≤ m) (hl : m < l.length) :
    ((create_text_blocks l m).map codeStrip).flatten = l := by
  unfold create_text_blocks
  have hno : ¬ l.length ≤ m := by omega
  rw [if_neg hno, List.map_map]
  have hid : codeStrip ∘ codeWrap = id := funext codeStrip_wrap
  rw [hid, List.map_id]
  simpa using chunkLoop_join l m hm 0

theorem claim_C5_witness :
    1 ≤ 2 ∧ 2 < ("ab cd".data).length ∧
    ((create_text_blocks "ab cd".data 2).map codeStrip).flatten = "ab cd".data :=
  ⟨by decide, by decide, claim_C5_chunking_roundtrip "ab cd".data 2 (by decide) (by decide)⟩

/-- C6: `detect_language` returns the first tag `"ko"` for every text
containing a codepoint in the Hangul syllable block, and the second tag `"en"`
for every text containing none, in particular for the empty string; being a
Lean function of the text alone it is deterministic, total and pure. -/
theorem claim_C6_detect_language (text : String) :
    ((∃ c ∈ text.data, isHangulSyllable c = true) → detect_language text = "ko") ∧
    ((∀ c ∈ text.data, isHangulSyllable c = false) → detect_language text = "en") ∧
    detect_language "" = "en" := by
  unfold detect_language
  refine ⟨?_, ?_, rfl⟩
  · rintro ⟨c, hc, hh⟩
    rw [if_pos (List.any_eq_true.mpr ⟨c, hc, hh⟩)]
  · intro h
    rw [if_neg]
    intro hany
    obtain ⟨c, hc, hh⟩ := List.any_eq_true.mp hany
    rw [h c hc] at hh
    exact Bool.false_ne_true hh

theorem claim_C6_witness :
    detect_language "안녕하세요" = "ko" ∧ detect_language "abc" = "en" ∧
      detect_language "" = "en" :=
  ⟨(claim_C6_detect_language "안녕하세요").1 (by decide),
   (claim_C6_detect_language "abc").2.1 (by decide),
   (claim_C6_detect_language "").2.2⟩

/-- C7: whenever the supplied-or-detected source language equals the target
language, `translate` of src/src/services/translation.py (with its client
initialised) skips the upstream call entirely and returns the input verbatim. -/
theorem claim_C7_same_language_skip (upstream : UpstreamOutcome) (text : String)
    (source_lang target_lang : Option String)
    (h : effSource text source_lang = effTarget text source_lang target_lang) :
    src_translate true upstream text source_lang target_lang = ⟨text, false⟩ := by
  by_cases he : pyStrip text = "" <;> simp [src_translate, he, h]

theorem claim_C7_witness :
    effSource "hello" (some "en") = effTarget "hello" (some "en") (some "en") ∧
    src_translate true (UpstreamOutcome.raises "boom") "hello" (some "en") (some "en") =
      ⟨"hello", false⟩ :=
  ⟨by decide,
   claim_C7_same_language_skip (UpstreamOutcome.raises "boom") "hello"
     (some "en") (some "en") (by decide)⟩

/-- C8 counterexample: an upstream fault with `str(e) = "boom"` is delivered by
src/src/services/translation.py 93-97 as `"Translation error: boom"` — the
user-visible message embeds the raw exception text, so it differs for a
different fault and is not one fixed normalized message; likewise the
src/api/slack.py worker (line 284) shows the raw `str(e)` in its error modal. -/
theorem claim_C8_counterexample :
    (src_translate true (UpstreamOutcome.raises "boom") "hello" none none).result =
      "Translation error: boom" ∧
    containsSub
      (src_translate true (UpstreamOutcome.raises "boom") "hello" none none).result
      "boom" = true ∧
    (src_translate true (UpstreamOutcome.raises "boom") "hello" none none).result ≠
      (src_translate true (UpstreamOutcome.raises "other fault") "hello" none none).result ∧
    (api_process_translation "hi" (TransOutcome.raises "boom") ∅ "r").1 =
      [ApiEvent.errorModal "boom"] := by
  decide

/-- C8 amended: every fault raised inside the upstream call is caught locally —
`translate` returns normally, nothing propagates past the caller — and is
resolved to the templated message `"Translation error: " ++ str(e)`; the
template therefore embeds the raw exception text instead of one fixed localized
message. -/
theorem claim_C8_amended (msg text : String) (source_lang target_lang : Option String)
    (hne : pyStrip text ≠ "")
    (hlang : effSource text source_lang ≠ effTarget text source_lang target_lang) :
    src_translate true (UpstreamOutcome.raises msg) text source_lang target_lang =
      ⟨"Translation error: " ++ msg, true⟩ := by
  simp [src_translate, hne, hlang]

theorem claim_C8_amended_witness :
    pyStrip "hello" ≠ "" ∧
    effSource "hello" none ≠ effTarget "hello" none none ∧
    src_translate true (UpstreamOutcome.raises "boom") "hello" none none =
      ⟨"Translation error: boom", true⟩ :=
  ⟨by decide, by decide,
   claim_C8_amended "boom" "hello" none none (by decide) (by decide)⟩

/-- C9: an input whose whitespace-stripped form is empty is returned unchanged
with no upstream call, in src/src/services/translation.py 35-37 and in
src/main.py 69-70, for every service state and upstream behaviour. -/
theorem claim_C9_empty_input (avail : Bool) (upstream : UpstreamOutcome)
    (text : String) (source_lang target_lang : Option String)
    (h : pyStrip text = "") :
    src_translate avail upstream text source_lang target_lang = ⟨text, false⟩ ∧
    main_translate avail upstream text = ⟨text, false⟩ := by
  constructor <;> simp [src_translate, main_translate, h]

theorem claim_C9_witness :
    pyStrip "  " = "" ∧
    src_translate false (UpstreamOutcome.ok none) "  " none none = ⟨"  ", false⟩ ∧
    main_translate false (UpstreamOutcome.ok none) "  " = ⟨"  ", false⟩ := by
  have h := claim_C9_empty_input false (UpstreamOutcome.ok none) "  " none none (by decide)
  exact ⟨by decide, h.1, h.2⟩

/-- C10: with any positive segment limit the chunking loop of src/main.py
318-337 terminates: `len(text) - start` iterations always suffice (the result
is independent of any larger fuel bound), every chunk it emits has length at
least 1 and at most the limit, and consequently it emits at most
`len(text) - start` chunks. -/
theorem claim_C10_chunk_loop_bounds (l : List Char) (m : Nat) (hm : 1 ≤ m)
    (start : Nat) :
    (∀ fuel, l.length - start ≤ fuel →
      chunkLoopF l m fuel start = chunkLoop l m start) ∧
    (∀ c ∈ chunkLoop l m start, 1 ≤ c.length ∧ c.length ≤ m) ∧
    (chunkLoop l m start).length ≤ l.length - start := by
  refine ⟨fun fuel hf =>
    chunkLoopF_fuel_irrelevant l m hm fuel (l.length - start) start hf (Nat.le_refl _), ?_⟩
  suffices h : ∀ fuel s, l.length - s ≤ fuel →
      (∀ c ∈ chunkLoopF l m fuel s, 1 ≤ c.length ∧ c.length ≤ m) ∧
      (chunkLoopF l m fuel s).length ≤ l.length - s by
    exact h (l.length - start) start (Nat.le_refl _)
  intro fuel
  induction fuel with
  | zero =>
      intro s hf
      simp [chunkLoopF]
  | succ n ih =>
      intro s hf
      rw [chunkLoopF]
      by_cases h1 : s < l.length
      · have h2 := lt_nextEnd l m s hm h1
        have h3 := nextEnd_le_length l m s
        have h4 := nextEnd_le_add l m s
        have ihe := ih (nextEnd l m s) (by omega)
        have ihc := ihe.2
        simp only [h1, if_true]
        constructor
        · intro c hc
          rcases List.mem_cons.mp hc with hceq | hc
          · subst hceq
            rw [List.length_take, List.length_drop]
            omega
          · exact ihe.1 c hc
        · simp only [List.length_cons]
          omega
      · simp [h1]

theorem claim_C10_witness :
    chunkLoopF "ab cd".data 2 5 0 = chunkLoop "ab cd".data 2 0 ∧
    (" c".data ∈ chunkLoop "ab cd".data 2 0 ∧
      1 ≤ (" c".data).length ∧ (" c".data).length ≤ 2) ∧
    (chunkLoop "ab cd".data 2 0).length ≤ ("ab cd".data).length - 0 := by
  have h := claim_C10_chunk_loop_bounds "ab cd".data 2 (by decide) 0
  exact ⟨h.1 5 (by decide), ⟨by decide, h.2.1 (" c".data) (by decide)⟩, h.2.2⟩

end SlackTranslateBot
